import Mathlib

/-!
Verification development for the TelegramBotAPI repository (file `core.py`).

The Python source is shallowly embedded:
- the two keyboard serializers (`InlineKeyboard.__str__`, `ReplyKeyboard.__str__`)
  become pure string functions;
- `TelegramBot.sendRequest` together with the error handling it triggers
  (`errorHandler`, `sendMsgToAdmin`, `writeLog`) becomes a fuel-indexed state
  transformer over an explicit state `St` that carries the bot's attributes
  (`URL`, `TIMEOUT`, `ADMINCHATID`, `LOGFILEPATH`, `offset`), a script of
  transport outcomes, and observable effect histories (issued HTTP requests,
  log-file content, invocation counters);
- Python exceptions become an `Except PyExc` result; an exception raised where
  the source has no enclosing `try` propagates as `Except.error`.

Braces inside string literals are written with the escapes `\x7b` and `\x7d`.
-/

/-- JSON values, as produced by Python's `json.loads`.  Numbers are restricted
to integers, which covers every value exchanged by the code under study. -/
inductive Json where
  | null : Json
  | bool (b : Bool) : Json
  | num (n : Int) : Json
  | str (s : String) : Json
  | arr (elems : List Json) : Json
  | obj (fields : List (String × Json)) : Json

/- ------------------------------------------------------------------ -/
/- Keyboard serializers (core.py lines 117-128 and 139-150).          -/
/- ------------------------------------------------------------------ -/

/-- Python string slicing `s[:-1]`: drop the final character. -/
def strInit (s : String) : String := String.mk s.data.dropLast

/-- `InlineKeyboard.__str__` (core.py lines 117-128), with the button grid as
the explicit argument.  Faithful transcription of the string-building loops,
including the `result[:-1]` trim of the trailing comma after the last row. -/
def inlineKeyboardStr (inlineButtons : List (List String)) : String :=
  let result := "\x7b\"inline_keyboard\":["
  let result := inlineButtons.foldl (fun result row =>
    let result := result ++ "["
    let result := row.foldl (fun result button =>
      let text := button
      result ++ "\x7b\"text\":\"" ++ text ++ "\",\"callback_data\":\"" ++ text ++ "\"\x7d") result
    result ++ "],") result
  strInit result ++ "]\x7d"

/-- `ReplyKeyboard.__str__` (core.py lines 139-150), with the button grid as
the explicit argument. -/
def replyKeyboardStr (keyboardButtons : List (List String)) : String :=
  let result := "\x7b\"keyboard\":["
  let result := keyboardButtons.foldl (fun result row =>
    let result := result ++ "["
    let result := row.foldl (fun result button =>
      result ++ "\"" ++ button ++ "\"") result
    result ++ "],") result
  let result := strInit result ++ "]"
  result ++ ",\"resize_keyboard\":true,\"one_time_keyboard\":true\x7d"

/- ------------------------------------------------------------------ -/
/- A strict JSON parser, used to decide "produces valid JSON".        -/
/- ------------------------------------------------------------------ -/

/-- Opening brace character (written via its code point). -/
def lbrace : Char := Char.ofNat 123

/-- Closing brace character (written via its code point). -/
def rbrace : Char := Char.ofNat 125

/-- JSON whitespace. -/
def isJsonWs (c : Char) : Bool :=
  c = ' ' || c = '\t' || c = '\n' || c = '\r'

/-- Decode a single JSON string escape character (the char after a backslash).
`\uXXXX` escapes are not supported (none occur in the strings under study). -/
def unescapeChar (c : Char) : Option Char :=
  if c = '"' then some '"'
  else if c = '\\' then some '\\'
  else if c = '/' then some '/'
  else if c = 'b' then some (Char.ofNat 8)
  else if c = 'f' then some (Char.ofNat 12)
  else if c = 'n' then some '\n'
  else if c = 'r' then some '\r'
  else if c = 't' then some '\t'
  else none

/-- Parse the body of a JSON string after the opening quote; returns the
decoded string and the rest of the input after the closing quote. -/
def parseStrBody : Nat → List Char → Option (String × List Char)
  | 0, _ => none
  | _, [] => none
  | fuel + 1, c :: rest =>
    if c = '"' then some ("", rest)
    else if c = '\\' then
      match rest with
      | [] => none
      | e :: rest2 =>
        match unescapeChar e with
        | none => none
        | some ch =>
          match parseStrBody fuel rest2 with
          | none => none
          | some (s, r) => some (ch.toString ++ s, r)
    else if c.toNat < 32 then none
    else
      match parseStrBody fuel rest with
      | none => none
      | some (s, r) => some (c.toString ++ s, r)

/-- Parse a run of decimal digits into a natural number (at least one digit). -/
def parseDigits : Nat → Nat → List Char → Option (Nat × List Char)
  | 0, _, _ => none
  | fuel + 1, acc, cs =>
    match cs with
    | c :: rest =>
      if c.isDigit then
        match parseDigits fuel (acc * 10 + (c.toNat - 48)) rest with
        | some r => some r
        | none => some (acc * 10 + (c.toNat - 48), rest)
      else none
    | [] => none

/-- Skip JSON whitespace. -/
def skipWs : List Char → List Char
  | [] => []
  | c :: rest => if isJsonWs c then skipWs rest else c :: rest

mutual

/-- Parse one JSON value; returns the value and the remaining input. -/
def parseVal : Nat → List Char → Option (Json × List Char)
  | 0, _ => none
  | fuel + 1, cs =>
    match skipWs cs with
    | [] => none
    | c :: rest =>
      if c = '"' then
        match parseStrBody fuel rest with
        | none => none
        | some (s, r) => some (Json.str s, r)
      else if c = lbrace then parseObjFields fuel rest true
      else if c = '[' then parseArrElems fuel rest true
      else if c = 't' then
        match rest with
        | 'r' :: 'u' :: 'e' :: r => some (Json.bool true, r)
        | _ => none
      else if c = 'f' then
        match rest with
        | 'a' :: 'l' :: 's' :: 'e' :: r => some (Json.bool false, r)
        | _ => none
      else if c = 'n' then
        match rest with
        | 'u' :: 'l' :: 'l' :: r => some (Json.null, r)
        | _ => none
      else if c = '-' then
        match parseDigits fuel 0 rest with
        | none => none
        | some (n, r) => some (Json.num (-(n : Int)), r)
      else if c.isDigit then
        match parseDigits fuel 0 (c :: rest) with
        | none => none
        | some (n, r) => some (Json.num (n : Int), r)
      else none

/-- Parse the elements of a JSON array after `[`; `first` is true when no
element has been consumed yet. -/
def parseArrElems : Nat → List Char → Bool → Option (Json × List Char)
  | 0, _, _ => none
  | fuel + 1, cs, first =>
    match skipWs cs with
    | [] => none
    | c :: rest =>
      if c = ']' ∧ first then some (Json.arr [], rest)
      else
        match parseVal fuel (if first then c :: rest else c :: rest) with
        | none => none
        | some (v, r) =>
          match skipWs r with
          | ']' :: r2 => some (Json.arr [v], r2)
          | ',' :: r2 =>
            match parseArrElems fuel r2 false with
            | some (Json.arr vs, r3) => some (Json.arr (v :: vs), r3)
            | _ => none
          | _ => none

/-- Parse the fields of a JSON object after the opening brace; `first` is true
when no field has been consumed yet. -/
def parseObjFields : Nat → List Char → Bool → Option (Json × List Char)
  | 0, _, _ => none
  | fuel + 1, cs, first =>
    match skipWs cs with
    | [] => none
    | c :: rest =>
      if c = rbrace ∧ first then some (Json.obj [], rest)
      else if c = '"' then
        match parseStrBody fuel rest with
        | none => none
        | some (k, r) =>
          match skipWs r with
          | ':' :: r2 =>
            match parseVal fuel r2 with
            | none => none
            | some (v, r3) =>
              match skipWs r3 with
              | c4 :: r4 =>
                if c4 = rbrace then some (Json.obj [(k, v)], r4)
                else if c4 = ',' then
                  match parseObjFields fuel r4 false with
                  | some (Json.obj fs, r5) => some (Json.obj ((k, v) :: fs), r5)
                  | _ => none
                else none
              | [] => none
          | _ => none
      else none

end

/-- Parse a complete JSON document: one value followed only by whitespace.
Returns `none` when the input is not valid JSON (within the supported
fragment: no `\u` escapes, integer numbers). -/
def Json.parse (s : String) : Option Json :=
  match parseVal (4 * s.length + 8) s.toList with
  | none => none
  | some (v, rest) => if skipWs rest = [] then some v else none

/- ------------------------------------------------------------------ -/
/- Python-side value helpers.                                         -/
/- ------------------------------------------------------------------ -/

/-- Dictionary lookup, as `response[key]` reads a parsed JSON object. -/
def lookupField : List (String × Json) → String → Option Json
  | [], _ => none
  | (k, v) :: rest, key => if k == key then some v else lookupField rest key

/-- Python truthiness of a `json.loads` value, as used by
`if not response["ok"]` (line 38) and `if response:` (line 51). -/
def pyTruthy : Json → Bool
  | Json.null => false
  | Json.bool b => b
  | Json.num n => n != 0
  | Json.str s => s != ""
  | Json.arr xs => !xs.isEmpty
  | Json.obj fs => !fs.isEmpty

/-- A single-quote character (written via its code point). -/
def sglq : String := (Char.ofNat 39).toString

/-- Escape characters the way Python's `repr` escapes a single-quoted string
(backslash, single quote, newline, carriage return, tab). -/
def escChars : List Char → List Char
  | [] => []
  | c :: rest =>
    (if c = '\\' then ['\\', '\\']
     else if c = Char.ofNat 39 then ['\\', Char.ofNat 39]
     else if c = '\n' then ['\\', 'n']
     else if c = '\r' then ['\\', 'r']
     else if c = '\t' then ['\\', 't']
     else [c]) ++ escChars rest

/-- String escaping used inside Python `repr` output. -/
def pyEsc (s : String) : String := String.mk (escChars s.data)

/-- `repr` of a Python string: single-quoted with escapes. -/
def pyStrLit (s : String) : String := sglq ++ pyEsc s ++ sglq

/-- A character with no `repr` escape. -/
def plainChar (c : Char) : Bool :=
  !(c = '\\' || c = Char.ofNat 39 || c = '\n' || c = '\r' || c = '\t')

mutual

/-- Python `str()` of a `json.loads` value (`None`/`True`/`False`, decimal
integers, `repr`-quoted strings, bracketed lists, braced dicts).  This is the
text `urlencode` produces for the dict passed to `sendMsgToAdmin(response)`
at line 40. -/
def pyStr : Json → String
  | Json.null => "None"
  | Json.bool true => "True"
  | Json.bool false => "False"
  | Json.num n => toString n
  | Json.str s => pyStrLit s
  | Json.arr xs => "[" ++ pyStrList xs ++ "]"
  | Json.obj fs => "\x7b" ++ pyStrFields fs ++ "\x7d"

/-- Comma-separated `str()` forms of list elements. -/
def pyStrList : List Json → String
  | [] => ""
  | [x] => pyStr x
  | x :: y :: rest => pyStr x ++ ", " ++ pyStrList (y :: rest)

/-- Comma-separated `repr(key): str(value)` forms of dict entries. -/
def pyStrFields : List (String × Json) → String
  | [] => ""
  | [(k, v)] => pyStrLit k ++ ": " ++ pyStr v
  | (k, v) :: f :: rest => pyStrLit k ++ ": " ++ pyStr v ++ ", " ++ pyStrFields (f :: rest)

end

/-- Characters `urllib.parse.quote_plus` passes through unescaped. -/
def isUrlSafe (c : Char) : Bool :=
  c.isAlpha || c.isDigit || c = '_' || c = '.' || c = '-' || c = '~'

/-- Uppercase hexadecimal digit. -/
def hexDigit (n : Nat) : Char :=
  if n < 10 then Char.ofNat (48 + n) else Char.ofNat (55 + n)

/-- `quote_plus` character translation over a character list. -/
def quotePlusChars : List Char → List Char
  | [] => []
  | c :: rest =>
    (if isUrlSafe c then [c]
     else if c = ' ' then ['+']
     else ['%', hexDigit (c.toNat / 16), hexDigit (c.toNat % 16)]) ++ quotePlusChars rest

/-- `urllib.parse.quote_plus` on ASCII text: safe characters pass, space
becomes `+`, everything else becomes `%XX` (multi-byte UTF-8 percent
encoding is not modelled; all strings under study are ASCII). -/
def quotePlus (s : String) : String := String.mk (quotePlusChars s.data)

/-- `urllib.parse.urlencode` on a list of key/value pairs whose values have
already been rendered with `str()` (which `urlencode` applies implicitly). -/
def urlencode (data : List (String × String)) : String :=
  String.intercalate "&" (data.map (fun p => quotePlus p.1 ++ "=" ++ quotePlus p.2))

/- ------------------------------------------------------------------ -/
/- Exceptions, transport outcomes, and the bot state.                 -/
/- ------------------------------------------------------------------ -/

/-- Python exceptions that the embedded code can raise or propagate. -/
inductive PyExc where
  | keyError (key : String)
  | typeError (msg : String)
  | recursionError
deriving DecidableEq

/-- Outcome of one `urlopen` + `read` + `loads` round trip, scripted by the
environment: a successfully parsed body, a body on which `loads` raised
(caught by the `try`), a non-`HTTPError` exception from `urlopen`, or an
`HTTPError` carrying the request URL and a readable error body. -/
inductive RawOutcome where
  | parsed (j : Json)
  | badBody (desc : String)
  | netExc (desc : String)
  | httpErr (filename : String) (body : String)

/-- The exception value caught by `except Exception as error` (line 35):
either an `HTTPError` or any other exception (`connBound` records whether the
`connection` local was bound when the exception was raised, i.e. whether
`urlopen` had already succeeded). -/
inductive CaughtExc where
  | http (filename : String) (body : String)
  | exc (desc : String) (connBound : Bool)

/-- Classify a transport outcome: either the `try` body completed with a
parsed response, or an exception was caught. -/
def outcomeClass : RawOutcome → CaughtExc ⊕ Json
  | RawOutcome.parsed j => Sum.inr j
  | RawOutcome.badBody desc => Sum.inl (CaughtExc.exc desc true)
  | RawOutcome.netExc desc => Sum.inl (CaughtExc.exc desc false)
  | RawOutcome.httpErr f b => Sum.inl (CaughtExc.http f b)

/-- State of one `TelegramBot` instance plus its observable environment:
the constructor-set attributes and `offset` (lines 19-23), the script of
pending transport outcomes, the `asctime()` value, and effect histories
(issued requests, log-file text, and invocation counters used to express
the temporal claims).  `LOGFILEPATH = ""` models the falsy default `0`. -/
structure St where
  URL : String
  TIMEOUT : Int
  ADMINCHATID : Int
  LOGFILEPATH : String
  offset : Int
  now : String
  outcomes : List RawOutcome
  requests : List (String × List (String × String))
  logText : String
  logWrites : Nat
  ehCalls : Nat
  adminSends : Nat

/-- Record one issued HTTP request (method plus form fields, pre-encoding). -/
def recordReq (st : St) (method : String) (data : List (String × String)) : St :=
  { st with requests := st.requests ++ [(method, data)] }

/-- Consume the next scripted transport outcome; an exhausted script behaves
as a benign `{"ok": true, "result": null}` response. -/
def popOutcome (st : St) : RawOutcome × St :=
  match st.outcomes with
  | [] => (RawOutcome.parsed (Json.obj [("ok", Json.bool true), ("result", Json.null)]), st)
  | o :: rest => (o, { st with outcomes := rest })

/-- `str(error.__traceback__.tb_frame)` — a frame repr; the memory address is
elided as it carries no data. -/
def frameStr : String := "<frame object for TelegramBot.sendRequest>"

/-- `error.__traceback__.tb_frame.f_locals` (line 96): the first traceback
entry's frame is `sendRequest`'s own frame, so its locals are `self`,
`method`, `data` (the urlencoded bytes built at line 30), `newRequest`,
`connection` when bound, and `error` — not the caller's `chatID`/`text`/
`keyboard` locals.  Values appear in their `str(dict)`-rendered form; opaque
object reprs are elided placeholders. -/
def frameLocals (method dataBytes errorRepr : String) (connBound : Bool) :
    List (String × String) :=
  [("self", "<TelegramBot object>"),
   ("method", pyStrLit method),
   ("data", "b" ++ pyStrLit dataBytes),
   ("newRequest", "<urllib.request.Request object>")] ++
  (if connBound then [("connection", "<http.client.HTTPResponse object>")] else []) ++
  [("error", errorRepr)]

/-- `tb.pop(key, None)`: remove an entry from the captured locals dict. -/
def popKey (l : List (String × String)) (key : String) : List (String × String) :=
  l.filter (fun p => p.1 != key)

/-- Lines 97-100: pop `chatID`, `text`, `keyboard`, `url` from the captured
locals (none of these keys exists in `sendRequest`'s frame). -/
def redactedLocals (l : List (String × String)) : List (String × String) :=
  popKey (popKey (popKey (popKey l "chatID") "text") "keyboard") "url"

/-- `str(tb)` for the locals dict whose values are already rendered. -/
def pyDictStr (l : List (String × String)) : String :=
  "\x7b" ++ String.intercalate ", " (l.map (fun p => pyStrLit p.1 ++ ": " ++ p.2)) ++ "\x7d"

/-- The diagnostic message `errorHandler` builds (lines 89-101): for an
`HTTPError`, `error.filename + "\n" + error.read().decode(...)`; otherwise
`str(error) + "\n" + str(tb_frame) + "\n" + str(tb)` over the redacted
frame locals. -/
def errMsg : CaughtExc → String → String → String
  | CaughtExc.http filename body, _, _ => filename ++ "\n" ++ body
  | CaughtExc.exc desc connBound, method, dataBytes =>
    desc ++ "\n" ++ frameStr ++ "\n" ++
      pyDictStr (redactedLocals (frameLocals method dataBytes desc connBound))

/-- `writeLog` (lines 78-82) called with a string message: append one block
(ten dashes, `asctime()`, the message, each newline-terminated) to the log
file, which is opened in mode `"a"` and closed per call. -/
def writeLog (st : St) (msg : String) : St :=
  { st with
    logText := st.logText ++ "----------" ++ "\n" ++ st.now ++ "\n" ++ msg ++ "\n",
    logWrites := st.logWrites + 1 }

/-- `writeLog` called with the parsed response dict (line 42 passes
`response`, not a string): `"..." + msg` then raises `TypeError` because a
dict cannot be concatenated to `str`, and nothing is written. -/
def writeLogOnJson (st : St) (msg : Json) : St × Except PyExc Unit :=
  match msg with
  | Json.str s => (writeLog st s, Except.ok ())
  | _ => (st, Except.error (PyExc.typeError "can only concatenate str"))

/- ------------------------------------------------------------------ -/
/- sendRequest and the facade operations.                             -/
/- ------------------------------------------------------------------ -/

/-- `TelegramBot.sendRequest` (lines 25-44) together with the error handling
it triggers (`errorHandler`, lines 84-105, whose admin notification
`sendMsgToAdmin(msg)` re-enters `sendRequest` on `"sendMessage"` with
`chat_id = ADMINCHATID` — modelled by the recursive calls).  The fuel
counts available stack depth; exhausting it is Python's `RecursionError`.
An `Except.error` result is an exception propagating to the caller. -/
def sendRequest : Nat → St → String → List (String × String) →
    St × Except PyExc (Option Json)
  | 0, st, _, _ => (st, Except.error PyExc.recursionError)
  | fuel + 1, st, method, data =>
    let dataBytes := urlencode data
    let st1 := recordReq st method data
    match popOutcome st1 with
    | (o, st2) =>
      match outcomeClass o with
      | Sum.inl err =>
        -- `except Exception as error: self.errorHandler(error)` (lines 35-36);
        -- `errorHandler` body, lines 89-105
        let st3 := { st2 with ehCalls := st2.ehCalls + 1 }
        let msg := errMsg err method dataBytes
        match (if st3.ADMINCHATID == 0 then (st3, Except.ok none)
               else sendRequest fuel { st3 with adminSends := st3.adminSends + 1 }
                      "sendMessage"
                      [("chat_id", toString st3.ADMINCHATID), ("text", msg)]) with
        | (st4, Except.error e) => (st4, Except.error e)
        | (st4, Except.ok _) =>
          if st4.LOGFILEPATH == "" then (st4, Except.ok none)
          else (writeLog st4 msg, Except.ok none)
      | Sum.inr j =>
        -- `else:` clause, lines 37-44 (exceptions here are NOT caught)
        match j with
        | Json.obj fields =>
          match lookupField fields "ok" with
          | none => (st2, Except.error (PyExc.keyError "ok"))
          | some okVal =>
            if pyTruthy okVal then
              match lookupField fields "result" with
              | none => (st2, Except.error (PyExc.keyError "result"))
              | some r => (st2, Except.ok (some r))
            else
              match (if st2.ADMINCHATID == 0 then (st2, Except.ok none)
                     else sendRequest fuel { st2 with adminSends := st2.adminSends + 1 }
                            "sendMessage"
                            [("chat_id", toString st2.ADMINCHATID), ("text", pyStr j)]) with
              | (st3, Except.error e) => (st3, Except.error e)
              | (st3, Except.ok _) =>
                if st3.LOGFILEPATH == "" then (st3, Except.ok none)
                else
                  match writeLogOnJson st3 j with
                  | (st4, Except.error e) => (st4, Except.error e)
                  | (st4, Except.ok _) => (st4, Except.ok none)
        | _ => (st2, Except.error (PyExc.typeError "response is not a dict"))

/-- `TelegramBot.getUpdate` (lines 46-53). -/
def getUpdate (fuel : Nat) (st : St) : St × Except PyExc (Option Json) :=
  let data := [("offset", toString st.offset), ("limit", "1"),
               ("timeout", toString st.TIMEOUT)]
  match sendRequest fuel st "getUpdates" data with
  | (st1, Except.error e) => (st1, Except.error e)
  | (st1, Except.ok none) => (st1, Except.ok none)
  | (st1, Except.ok (some j)) =>
    if pyTruthy j then
      match j with
      | Json.arr (Json.obj fs :: _) =>
        match lookupField fs "update_id" with
        | some (Json.num n) => ({ st1 with offset := n + 1 }, Except.ok (some j))
        | some _ => (st1, Except.error (PyExc.typeError "unsupported operand for +"))
        | none => (st1, Except.error (PyExc.keyError "update_id"))
      | Json.arr _ => (st1, Except.error (PyExc.typeError "indices must be integers"))
      | _ => (st1, Except.error (PyExc.typeError "not subscriptable"))
    else (st1, Except.ok (some j))

/-- `TelegramBot.sendMsg` (lines 55-59). -/
def sendMsg (fuel : Nat) (st : St) (chatID : Int) (text : String) :
    St × Except PyExc (Option Json) :=
  sendRequest fuel st "sendMessage" [("chat_id", toString chatID), ("text", text)]

/-- `TelegramBot.sendMsgToAdmin` (lines 61-64). -/
def sendMsgToAdmin (fuel : Nat) (st : St) (msg : String) :
    St × Except PyExc (Option Json) :=
  sendMsg fuel st st.ADMINCHATID msg

/-- `TelegramBot.sendKeyboard` (lines 66-70); `keyboard` is the `str()` form
of the keyboard object, i.e. a serializer output. -/
def sendKeyboard (fuel : Nat) (st : St) (chatID : Int) (text : String)
    (keyboard : String) : St × Except PyExc (Option Json) :=
  sendRequest fuel st "sendMessage"
    [("chat_id", toString chatID), ("text", text), ("reply_markup", keyboard)]

/-- `TelegramBot.deletMessage` (lines 72-76). -/
def deletMessage (fuel : Nat) (st : St) (chatID : Int) (message_id : Int) :
    St × Except PyExc (Option Json) :=
  sendRequest fuel st "deleteMessage"
    [("chat_id", toString chatID), ("message_id", toString message_id)]

/- ------------------------------------------------------------------ -/
/- Scenario-building helpers and predicates used by the claims.       -/
/- ------------------------------------------------------------------ -/

/-- A fresh bot state with the given admin chat id, log path, `asctime()`
value, cursor, and outcome script (all histories empty, as after
`__init__`). -/
def mkSt (admin : Int) (logPath : String) (now : String) (off : Int)
    (outcomes : List RawOutcome) : St :=
  { URL := "https://api.telegram.org/botTOKEN/", TIMEOUT := 3600,
    ADMINCHATID := admin, LOGFILEPATH := logPath, offset := off, now := now,
    outcomes := outcomes, requests := [], logText := "", logWrites := 0,
    ehCalls := 0, adminSends := 0 }

/-- The transport outcome of a successful poll returning exactly one update
with the given `update_id`. -/
def okUpdOutcome (i : Int) : RawOutcome :=
  RawOutcome.parsed (Json.obj
    [("ok", Json.bool true),
     ("result", Json.arr [Json.obj [("update_id", Json.num i)]])])

/-- An `ok:false` envelope carrying a `description`. -/
def envFalse (d : String) : Json :=
  Json.obj [("ok", Json.bool false), ("description", Json.str d)]

/-- A benign `{"ok": true, "result": null}` outcome. -/
def okNullOutcome : RawOutcome :=
  RawOutcome.parsed (Json.obj [("ok", Json.bool true), ("result", Json.null)])

/-- Run a sequence of polls, each served by a fresh one-update outcome. -/
def pollSeq : St → List Int → St
  | st, [] => st
  | st, i :: rest =>
    pollSeq (getUpdate 2 { st with outcomes := [okUpdOutcome i] }).1 rest

/-- Whether a call completed without an exception escaping. -/
def exceptOk {α : Type} : Except PyExc α → Bool
  | Except.ok _ => true
  | Except.error _ => false

/-- Outcomes on which `sendRequest` raises nothing: exceptions from the
transport are caught, and a parsed body must be an object with an `ok` field,
with `result` present when `ok` is truthy, and — because line 42 would pass
the response dict to `writeLog` — no falsy `ok` while a log file is
configured (`logOn`). -/
def benignB (logOn : Bool) : RawOutcome → Bool
  | RawOutcome.netExc _ => true
  | RawOutcome.badBody _ => true
  | RawOutcome.httpErr _ _ => true
  | RawOutcome.parsed j =>
    match j with
    | Json.obj fields =>
      match lookupField fields "ok" with
      | none => false
      | some okVal =>
        if pyTruthy okVal then (lookupField fields "result").isSome
        else !logOn
    | _ => false

/-- Whether an outcome's truthy result (if any) is a well-formed update list,
so that `response[0]["update_id"] + 1` (line 52) does not raise. -/
def goodUpdates : RawOutcome → Bool
  | RawOutcome.parsed (Json.obj fields) =>
    (match lookupField fields "ok" with
     | some okVal =>
       if pyTruthy okVal then
         match lookupField fields "result" with
         | some r =>
           if pyTruthy r then
             match r with
             | Json.arr (Json.obj us :: _) =>
               match lookupField us "update_id" with
               | some (Json.num _) => true
               | _ => false
             | _ => false
           else true
         | none => true
       else true
     | none => true)
  | _ => true

/-- `goodUpdates` on the outcome a `getUpdate` call will consume. -/
def goodUpdatesHead : List RawOutcome → Bool
  | [] => true
  | o :: _ => goodUpdates o

/-- Each poll's update id is at least the cursor in force when it is
requested (the offset-based protocol's normal-operation guarantee). -/
def ascendingB : Int → List Int → Bool
  | _, [] => true
  | c, i :: rest => if c ≤ i then ascendingB (i + 1) rest else false

/-- Maximum of a list of update ids (0 for the empty list). -/
def maxOf : List Int → Int
  | [] => 0
  | [i] => i
  | i :: j :: rest => max i (maxOf (j :: rest))

/-- Executable substring test: `prefixEq n h` — `n` is a prefix of `h`. -/
def prefixEq : List Char → List Char → Bool
  | [], _ => true
  | _ :: _, [] => false
  | a :: as, b :: bs => a = b && prefixEq as bs

/-- Executable substring test: the needle occurs somewhere in the haystack. -/
def subAt : List Char → List Char → Bool
  | needle, [] => prefixEq needle []
  | needle, c :: rest => prefixEq needle (c :: rest) || subAt needle rest

/-- `needle` occurs as a contiguous substring of `hay`. -/
def strContains (needle hay : String) : Bool := subAt needle.data hay.data

/-- `needle` occurs inside `hay` (propositional form, used where the needle
is symbolic). -/
def Appears (needle hay : String) : Prop := ∃ p q, hay = p ++ needle ++ q

/-- Frame relation: state `a` agrees with state `b` on the cursor and on
every constructor-set attribute (and the clock), and its outcome script is a
suffix of `b`'s (outcomes are only ever consumed). -/
def framePres (a b : St) : Prop :=
  a.URL = b.URL ∧ a.TIMEOUT = b.TIMEOUT ∧ a.ADMINCHATID = b.ADMINCHATID ∧
  a.LOGFILEPATH = b.LOGFILEPATH ∧ a.offset = b.offset ∧ a.now = b.now ∧
  a.outcomes <:+ b.outcomes

/-- The `result` payload a `sendRequest` call can hand back, read off the
first pending outcome: `some` only when the script is exhausted (benign
default, `null` result) or the head outcome parses to an object whose `ok`
is truthy (then it is that object's `result` field). -/
def headResult : List RawOutcome → Option Json
  | [] => some Json.null
  | RawOutcome.parsed (Json.obj fields) :: _ =>
    (match lookupField fields "ok" with
     | some okVal => if pyTruthy okVal then lookupField fields "result" else none
     | none => none)
  | _ => none

/- ================================================================== -/
/- Helper lemmas.                                                     -/
/- ================================================================== -/

theorem framePres_refl (a : St) : framePres a a :=
  ⟨rfl, rfl, rfl, rfl, rfl, rfl, List.suffix_refl _⟩

theorem framePres_trans {a b c : St} (h1 : framePres a b) (h2 : framePres b c) :
    framePres a c := by
  obtain ⟨u1, t1, a1, l1, o1, n1, s1⟩ := h1
  obtain ⟨u2, t2, a2, l2, o2, n2, s2⟩ := h2
  exact ⟨u1.trans u2, t1.trans t2, a1.trans a2, l1.trans l2, o1.trans o2,
         n1.trans n2, s1.trans s2⟩

theorem framePres_update {st : St} (n m : Nat) :
    framePres ({ st with ehCalls := n, adminSends := m } : St) st :=
  ⟨rfl, rfl, rfl, rfl, rfl, rfl, List.suffix_refl _⟩

theorem writeLog_framePres (st : St) (msg : String) : framePres (writeLog st msg) st :=
  ⟨rfl, rfl, rfl, rfl, rfl, rfl, List.suffix_refl _⟩

theorem writeLogOnJson_framePres (st : St) (v : Json) :
    framePres (writeLogOnJson st v).1 st := by
  cases v with
  | str s => exact writeLog_framePres st s
  | null => exact framePres_refl st
  | bool b => exact framePres_refl st
  | num n => exact framePres_refl st
  | arr xs => exact framePres_refl st
  | obj fs => exact framePres_refl st

theorem popOutcome_framePres (st : St) : framePres (popOutcome st).2 st := by
  unfold popOutcome
  rcases h : st.outcomes with _ | ⟨o, rest⟩
  · simpa [h] using framePres_refl st
  · refine ⟨rfl, rfl, rfl, rfl, rfl, rfl, ?_⟩
    simp only [h]
    exact List.suffix_cons o rest

theorem sendRequest_framePres (fuel : Nat) :
    ∀ (st : St) (method : String) (data : List (String × String)),
      framePres (sendRequest fuel st method data).1 st := by
  induction fuel with
  | zero => intro st method data; exact framePres_refl st
  | succ fuel ih =>
    intro st method data
    have hrec : framePres (recordReq st method data) st :=
      ⟨rfl, rfl, rfl, rfl, rfl, rfl, List.suffix_refl _⟩
    rw [sendRequest]
    rcases hpop : popOutcome (recordReq st method data) with ⟨o, st2⟩
    have h2 : framePres st2 st := by
      have h := popOutcome_framePres (recordReq st method data)
      rw [hpop] at h
      exact framePres_trans h hrec
    cases o with
    | netExc desc =>
      simp only [outcomeClass]
      split
      · rename_i st4 e heq
        split at heq
        · simp at heq
        · replace heq := congrArg Prod.fst heq
          exact framePres_trans (framePres_trans (heq ▸ ih _ _ _) (framePres_update _ _)) h2
      · rename_i st4 v heq
        have h4 : framePres st4 st := by
          split at heq
          · injection heq with ha hb
            subst ha
            exact framePres_trans (framePres_update _ _) h2
          · replace heq := congrArg Prod.fst heq
            exact framePres_trans (framePres_trans (heq ▸ ih _ _ _) (framePres_update _ _)) h2
        split
        · exact h4
        · exact framePres_trans (writeLog_framePres _ _) h4
    | badBody desc =>
      simp only [outcomeClass]
      split
      · rename_i st4 e heq
        split at heq
        · simp at heq
        · replace heq := congrArg Prod.fst heq
          exact framePres_trans (framePres_trans (heq ▸ ih _ _ _) (framePres_update _ _)) h2
      · rename_i st4 v heq
        have h4 : framePres st4 st := by
          split at heq
          · injection heq with ha hb
            subst ha
            exact framePres_trans (framePres_update _ _) h2
          · replace heq := congrArg Prod.fst heq
            exact framePres_trans (framePres_trans (heq ▸ ih _ _ _) (framePres_update _ _)) h2
        split
        · exact h4
        · exact framePres_trans (writeLog_framePres _ _) h4
    | httpErr f b =>
      simp only [outcomeClass]
      split
      · rename_i st4 e heq
        split at heq
        · simp at heq
        · replace heq := congrArg Prod.fst heq
          exact framePres_trans (framePres_trans (heq ▸ ih _ _ _) (framePres_update _ _)) h2
      · rename_i st4 v heq
        have h4 : framePres st4 st := by
          split at heq
          · injection heq with ha hb
            subst ha
            exact framePres_trans (framePres_update _ _) h2
          · replace heq := congrArg Prod.fst heq
            exact framePres_trans (framePres_trans (heq ▸ ih _ _ _) (framePres_update _ _)) h2
        split
        · exact h4
        · exact framePres_trans (writeLog_framePres _ _) h4
    | parsed j =>
      simp only [outcomeClass]
      cases j with
      | null => exact h2
      | bool b => exact h2
      | num n => exact h2
      | str s => exact h2
      | arr xs => exact h2
      | obj fields =>
        cases hok : lookupField fields "ok" with
        | none => simp only [hok]; exact h2
        | some okVal =>
          simp only [hok]
          cases htr : pyTruthy okVal with
          | true =>
            rw [if_pos rfl]
            cases hres : lookupField fields "result" with
            | none => simp only [hres]; exact h2
            | some r => simp only [hres]; exact h2
          | false =>
            rw [if_neg Bool.false_ne_true]
            split
            · rename_i st3 e heq
              split at heq
              · simp at heq
              · replace heq := congrArg Prod.fst heq
                exact framePres_trans (framePres_trans (heq ▸ ih _ _ _) (framePres_update _ _)) h2
            · rename_i st3 v heq
              have h3 : framePres st3 st := by
                split at heq
                · injection heq with ha hb
                  subst ha
                  exact h2
                · replace heq := congrArg Prod.fst heq
                  exact framePres_trans (framePres_trans (heq ▸ ih _ _ _) (framePres_update _ _)) h2
              split
              · exact h3
              · split
                · rename_i st4 e heq2
                  have h := writeLogOnJson_framePres st3 (Json.obj fields)
                  rw [heq2] at h
                  exact framePres_trans h h3
                · rename_i st4 u heq2
                  have h := writeLogOnJson_framePres st3 (Json.obj fields)
                  rw [heq2] at h
                  exact framePres_trans h h3

theorem popOutcome_eq_nil {st : St} (h : st.outcomes = []) :
    popOutcome st =
      (RawOutcome.parsed (Json.obj [("ok", Json.bool true), ("result", Json.null)]), st) := by
  unfold popOutcome
  rw [h]

theorem popOutcome_eq_cons {st : St} {o : RawOutcome} {rest : List RawOutcome}
    (h : st.outcomes = o :: rest) :
    popOutcome st = (o, { st with outcomes := rest }) := by
  unfold popOutcome
  rw [h]

theorem sendRequest_noExc (fuel : Nat) :
    ∀ (st : St) (method : String) (data : List (String × String)),
      st.outcomes.length < fuel →
      st.outcomes.all (benignB (st.LOGFILEPATH != "")) = true →
      exceptOk (sendRequest fuel st method data).2 = true := by
  induction fuel with
  | zero => intro st method data h _; exact absurd h (Nat.not_lt_zero _)
  | succ fuel ih =>
    intro st method data hlen hben
    rw [sendRequest]
    rcases houtc : st.outcomes with _ | ⟨o, rest⟩
    · rw [popOutcome_eq_nil (show (recordReq st method data).outcomes = [] from houtc)]
      rfl
    · rw [popOutcome_eq_cons (show (recordReq st method data).outcomes = o :: rest from houtc)]
      rw [houtc] at hlen hben
      simp only [List.length_cons] at hlen
      have hlen' : rest.length < fuel := by omega
      simp only [List.all_cons, Bool.and_eq_true] at hben
      obtain ⟨hbo, hbr⟩ := hben
      cases o with
      | netExc desc =>
        simp only [outcomeClass]
        dsimp only [recordReq]
        cases hadm : st.ADMINCHATID == 0 with
        | true =>
          rw [if_pos rfl]
          split
          · rename_i st4 e heq
            simp at heq
          · rename_i st4 v heq
            split <;> rfl
        | false =>
          rw [if_neg Bool.false_ne_true]
          have hx := ih
            ({ st with outcomes := rest,
                       requests := st.requests ++ [(method, data)],
                       ehCalls := st.ehCalls + 1,
                       adminSends := st.adminSends + 1 } : St)
            "sendMessage"
            [("chat_id", toString st.ADMINCHATID),
             ("text", errMsg (CaughtExc.exc desc false) method (urlencode data))]
            hlen' hbr
          rcases hsr : sendRequest fuel
            ({ st with outcomes := rest,
                       requests := st.requests ++ [(method, data)],
                       ehCalls := st.ehCalls + 1,
                       adminSends := st.adminSends + 1 } : St)
            "sendMessage"
            [("chat_id", toString st.ADMINCHATID),
             ("text", errMsg (CaughtExc.exc desc false) method (urlencode data))]
            with ⟨st4, r4⟩
          rw [hsr] at hx
          cases r4 with
          | error e => simp [exceptOk] at hx
          | ok v =>
            split
            · rename_i st5 e heq
              simp at heq
            · rename_i st5 u heq
              split <;> rfl
      | badBody desc =>
        simp only [outcomeClass]
        dsimp only [recordReq]
        cases hadm : st.ADMINCHATID == 0 with
        | true =>
          rw [if_pos rfl]
          split
          · rename_i st4 e heq
            simp at heq
          · rename_i st4 v heq
            split <;> rfl
        | false =>
          rw [if_neg Bool.false_ne_true]
          have hx := ih
            ({ st with outcomes := rest,
                       requests := st.requests ++ [(method, data)],
                       ehCalls := st.ehCalls + 1,
                       adminSends := st.adminSends + 1 } : St)
            "sendMessage"
            [("chat_id", toString st.ADMINCHATID),
             ("text", errMsg (CaughtExc.exc desc true) method (urlencode data))]
            hlen' hbr
          rcases hsr : sendRequest fuel
            ({ st with outcomes := rest,
                       requests := st.requests ++ [(method, data)],
                       ehCalls := st.ehCalls + 1,
                       adminSends := st.adminSends + 1 } : St)
            "sendMessage"
            [("chat_id", toString st.ADMINCHATID),
             ("text", errMsg (CaughtExc.exc desc true) method (urlencode data))]
            with ⟨st4, r4⟩
          rw [hsr] at hx
          cases r4 with
          | error e => simp [exceptOk] at hx
          | ok v =>
            split
            · rename_i st5 e heq
              simp at heq
            · rename_i st5 u heq
              split <;> rfl
      | httpErr f b =>
        simp only [outcomeClass]
        dsimp only [recordReq]
        cases hadm : st.ADMINCHATID == 0 with
        | true =>
          rw [if_pos rfl]
          split
          · rename_i st4 e heq
            simp at heq
          · rename_i st4 v heq
            split <;> rfl
        | false =>
          rw [if_neg Bool.false_ne_true]
          have hx := ih
            ({ st with outcomes := rest,
                       requests := st.requests ++ [(method, data)],
                       ehCalls := st.ehCalls + 1,
                       adminSends := st.adminSends + 1 } : St)
            "sendMessage"
            [("chat_id", toString st.ADMINCHATID),
             ("text", errMsg (CaughtExc.http f b) method (urlencode data))]
            hlen' hbr
          rcases hsr : sendRequest fuel
            ({ st with outcomes := rest,
                       requests := st.requests ++ [(method, data)],
                       ehCalls := st.ehCalls + 1,
                       adminSends := st.adminSends + 1 } : St)
            "sendMessage"
            [("chat_id", toString st.ADMINCHATID),
             ("text", errMsg (CaughtExc.http f b) method (urlencode data))]
            with ⟨st4, r4⟩
          rw [hsr] at hx
          cases r4 with
          | error e => simp [exceptOk] at hx
          | ok v =>
            split
            · rename_i st5 e heq
              simp at heq
            · rename_i st5 u heq
              split <;> rfl
      | parsed j =>
        simp only [outcomeClass]
        dsimp only [recordReq]
        cases j with
        | null => simp [benignB] at hbo
        | bool b => simp [benignB] at hbo
        | num n => simp [benignB] at hbo
        | str s => simp [benignB] at hbo
        | arr xs => simp [benignB] at hbo
        | obj fields =>
          dsimp only
          cases hok : lookupField fields "ok" with
          | none => simp [benignB, hok] at hbo
          | some okVal =>
            dsimp only
            cases htr : pyTruthy okVal with
            | true =>
              rw [if_pos rfl]
              simp only [benignB, hok, htr, if_true] at hbo
              rcases hres : lookupField fields "result" with _ | r
              · rw [hres] at hbo
                simp at hbo
              · rfl
            | false =>
              rw [if_neg Bool.false_ne_true]
              simp only [benignB, hok, htr, if_false] at hbo
              have hlog : st.LOGFILEPATH = "" := by
                simpa [bne] using hbo
              cases hadm : st.ADMINCHATID == 0 with
              | true =>
                rw [if_pos rfl]
                split
                · rename_i st4 e heq
                  simp at heq
                · rename_i st4 v heq
                  injection heq with ha hb
                  subst ha
                  rw [if_pos (by simp [hlog])]
                  rfl
              | false =>
                rw [if_neg Bool.false_ne_true]
                have hx := ih
                  ({ st with outcomes := rest,
                             requests := st.requests ++ [(method, data)],
                             adminSends := st.adminSends + 1 } : St)
                  "sendMessage"
                  [("chat_id", toString st.ADMINCHATID),
                   ("text", pyStr (Json.obj fields))]
                  hlen' hbr
                rcases hsr : sendRequest fuel
                  ({ st with outcomes := rest,
                             requests := st.requests ++ [(method, data)],
                             adminSends := st.adminSends + 1 } : St)
                  "sendMessage"
                  [("chat_id", toString st.ADMINCHATID),
                   ("text", pyStr (Json.obj fields))]
                  with ⟨st4, r4⟩
                rw [hsr] at hx
                cases r4 with
                | error e => simp [exceptOk] at hx
                | ok v =>
                  split
                  · rename_i st5 e heq
                    simp at heq
                  · rename_i st5 u heq
                    injection heq with ha hb
                    subst ha
                    have hl4 : st4.LOGFILEPATH = "" := by
                      have hf := sendRequest_framePres fuel
                        ({ st with outcomes := rest,
                                   requests := st.requests ++ [(method, data)],
                                   adminSends := st.adminSends + 1 } : St)
                        "sendMessage"
                        [("chat_id", toString st.ADMINCHATID),
                         ("text", pyStr (Json.obj fields))]
                      rw [hsr] at hf
                      exact (hf.2.2.2.1).trans hlog
                    rw [if_pos (by simp [hl4])]
                    rfl

theorem sendRequest_ok_some (fuel : Nat) (st : St) (method : String)
    (data : List (String × String)) (j : Json)
    (h : (sendRequest (fuel + 1) st method data).2 = Except.ok (some j)) :
    headResult st.outcomes = some j := by
  rw [sendRequest] at h
  rcases houtc : st.outcomes with _ | ⟨o, rest⟩
  · rw [popOutcome_eq_nil (show (recordReq st method data).outcomes = [] from houtc)] at h
    simp only [outcomeClass, lookupField, pyTruthy, headResult] at h ⊢
    simp at h
    rw [← h]
  · rw [popOutcome_eq_cons (show (recordReq st method data).outcomes = o :: rest from houtc)] at h
    cases o with
    | netExc desc =>
      simp only [outcomeClass] at h
      dsimp only [recordReq] at h
      exfalso
      cases hadm : st.ADMINCHATID == 0 with
      | true =>
        rw [hadm] at h
        rw [if_pos rfl] at h
        split at h
        · rename_i st4 e heq
          simp at heq
        · rename_i st4 v heq
          split at h <;> simp at h
      | false =>
        rw [hadm] at h
        rw [if_neg Bool.false_ne_true] at h
        split at h
        · rename_i st4 e heq
          simp at h
        · rename_i st4 v heq
          split at h <;> simp at h
    | badBody desc =>
      simp only [outcomeClass] at h
      dsimp only [recordReq] at h
      exfalso
      cases hadm : st.ADMINCHATID == 0 with
      | true =>
        rw [hadm] at h
        rw [if_pos rfl] at h
        split at h
        · rename_i st4 e heq
          simp at heq
        · rename_i st4 v heq
          split at h <;> simp at h
      | false =>
        rw [hadm] at h
        rw [if_neg Bool.false_ne_true] at h
        split at h
        · rename_i st4 e heq
          simp at h
        · rename_i st4 v heq
          split at h <;> simp at h
    | httpErr f b =>
      simp only [outcomeClass] at h
      dsimp only [recordReq] at h
      exfalso
      cases hadm : st.ADMINCHATID == 0 with
      | true =>
        rw [hadm] at h
        rw [if_pos rfl] at h
        split at h
        · rename_i st4 e heq
          simp at heq
        · rename_i st4 v heq
          split at h <;> simp at h
      | false =>
        rw [hadm] at h
        rw [if_neg Bool.false_ne_true] at h
        split at h
        · rename_i st4 e heq
          simp at h
        · rename_i st4 v heq
          split at h <;> simp at h
    | parsed jj =>
      simp only [outcomeClass] at h
      dsimp only [recordReq] at h
      cases jj with
      | null => exact absurd h (by simp)
      | bool b => exact absurd h (by simp)
      | num n => exact absurd h (by simp)
      | str s => exact absurd h (by simp)
      | arr xs => exact absurd h (by simp)
      | obj fields =>
        dsimp only at h
        cases hok : lookupField fields "ok" with
        | none =>
          rw [hok] at h
          simp at h
        | some okVal =>
          rw [hok] at h
          dsimp only at h
          cases htr : pyTruthy okVal with
          | true =>
            rw [htr] at h
            rw [if_pos rfl] at h
            cases hres : lookupField fields "result" with
            | none =>
              rw [hres] at h
              simp at h
            | some r =>
              rw [hres] at h
              simp only [Except.ok.injEq, Option.some.injEq] at h
              simp only [headResult, hok, htr]
              simp [hres, h]
          | false =>
            rw [htr] at h
            rw [if_neg Bool.false_ne_true] at h
            exfalso
            split at h
            · simp at h
            · split at h
              · simp at h
              · split at h <;> simp at h

theorem getUpdate_noExc (fuel : Nat) (st : St)
    (hlen : st.outcomes.length < fuel)
    (hben : st.outcomes.all (benignB (st.LOGFILEPATH != "")) = true)
    (hupd : goodUpdatesHead st.outcomes = true) :
    exceptOk (getUpdate fuel st).2 = true := by
  rw [getUpdate]
  rcases hsr : sendRequest fuel st "getUpdates"
      [("offset", toString st.offset), ("limit", "1"), ("timeout", toString st.TIMEOUT)]
    with ⟨st1, r⟩
  have hx := sendRequest_noExc fuel st "getUpdates"
      [("offset", toString st.offset), ("limit", "1"), ("timeout", toString st.TIMEOUT)]
      hlen hben
  rw [hsr] at hx
  cases r with
  | error e => simp [exceptOk] at hx
  | ok v =>
    cases v with
    | none => rfl
    | some j =>
      dsimp only
      cases fuel with
      | zero => exact absurd hlen (Nat.not_lt_zero _)
      | succ f =>
        have hshape := sendRequest_ok_some f st "getUpdates"
          [("offset", toString st.offset), ("limit", "1"), ("timeout", toString st.TIMEOUT)]
          j (by rw [hsr])
        rcases houtc : st.outcomes with _ | ⟨o, rest⟩
        · rw [houtc] at hshape
          simp only [headResult, Option.some.injEq] at hshape
          subst hshape
          rfl
        · rw [houtc] at hshape hupd
          cases o with
          | netExc desc => simp [headResult] at hshape
          | badBody desc => simp [headResult] at hshape
          | httpErr f2 b2 => simp [headResult] at hshape
          | parsed jj =>
            cases jj with
            | null => simp [headResult] at hshape
            | bool b => simp [headResult] at hshape
            | num n => simp [headResult] at hshape
            | str s => simp [headResult] at hshape
            | arr xs => simp [headResult] at hshape
            | obj fields =>
              simp only [headResult] at hshape
              cases hok : lookupField fields "ok" with
              | none => rw [hok] at hshape; simp at hshape
              | some okVal =>
                rw [hok] at hshape
                dsimp only at hshape
                cases htr : pyTruthy okVal with
                | false => rw [htr] at hshape; simp at hshape
                | true =>
                  rw [htr] at hshape
                  rw [if_pos rfl] at hshape
                  simp only [goodUpdatesHead, goodUpdates, hok, htr, hshape] at hupd
                  cases htrj : pyTruthy j with
                  | false =>
                    rw [if_neg Bool.false_ne_true]
                    rfl
                  | true =>
                    simp only [if_true] at hupd
                    rw [htrj] at hupd
                    rw [if_pos rfl] at hupd
                    rw [if_pos rfl]
                    cases j with
                    | null => simp at hupd
                    | bool b => simp at hupd
                    | num n => simp at hupd
                    | str s => simp at hupd
                    | obj fs => simp at hupd
                    | arr es =>
                      cases es with
                      | nil => exact absurd htrj (by simp [pyTruthy])
                      | cons u us' =>
                        cases u with
                        | null => simp at hupd
                        | bool b => simp at hupd
                        | num n => simp at hupd
                        | str s => simp at hupd
                        | arr zs => simp at hupd
                        | obj us =>
                          dsimp only at hupd ⊢
                          cases hui : lookupField us "update_id" with
                          | none => rw [hui] at hupd; simp at hupd
                          | some x =>
                            rw [hui] at hupd
                            cases x with
                            | null => simp at hupd
                            | bool b => simp at hupd
                            | str s => simp at hupd
                            | arr zs => simp at hupd
                            | obj fs2 => simp at hupd
                            | num n => rfl

/- ================================================================== -/
/- Claim theorems.                                                    -/
/- ================================================================== -/

/-- C1: the spec claims `InlineKeyboard.__str__` produces valid JSON for
every button grid with matching shape and `text = callback_data = label`.
The code omits the comma between adjacent buttons of a row, so for the grid
`[["a", "b"]]` (two buttons in one row, the very shape of the class
docstring's example) the output is not valid JSON; with one button per row
the output is valid and has the claimed shape, which isolates the missing
comma as the defect. -/
theorem C1_inline_two_buttons_invalid_json :
    inlineKeyboardStr [["a", "b"]] =
      "\x7b\"inline_keyboard\":[[\x7b\"text\":\"a\",\"callback_data\":\"a\"\x7d\x7b\"text\":\"b\",\"callback_data\":\"b\"\x7d]]\x7d" ∧
    Json.parse (inlineKeyboardStr [["a", "b"]]) = none ∧
    Json.parse (inlineKeyboardStr [["a"]]) =
      some (Json.obj [("inline_keyboard", Json.arr [Json.arr
        [Json.obj [("text", Json.str "a"), ("callback_data", Json.str "a")]]])]) :=
  ⟨rfl, rfl, rfl⟩

/-- C4: the spec claims `ReplyKeyboard.__str__` produces valid JSON mirroring
the grid, with both fixed flags true.  The same missing comma between
adjacent buttons of a row makes the output invalid for `[["a", "b"]]`, while
single-button rows serialize to valid JSON of the claimed shape. -/
theorem C4_reply_two_buttons_invalid_json :
    replyKeyboardStr [["a", "b"]] =
      "\x7b\"keyboard\":[[\"a\"\"b\"]],\"resize_keyboard\":true,\"one_time_keyboard\":true\x7d" ∧
    Json.parse (replyKeyboardStr [["a", "b"]]) = none ∧
    Json.parse (replyKeyboardStr [["a"], ["b"]]) =
      some (Json.obj [("keyboard", Json.arr [Json.arr [Json.str "a"], Json.arr [Json.str "b"]]),
        ("resize_keyboard", Json.bool true), ("one_time_keyboard", Json.bool true)]) :=
  ⟨rfl, rfl, rfl⟩

/-- C2: a poll served with a single update of id `i` advances the cursor to
`i + 1` and sends `offset` equal to the cursor in force when the poll was
issued; in particular a fresh bot polling updates `5, 7, 9` holds cursors
`6, 8, 10` after each poll, having sent offsets `0, 6, 8`. -/
theorem C2_cursor_advance :
    (∀ (fuel : Nat) (st : St) (i : Int),
      (getUpdate (fuel + 1) { st with outcomes := [okUpdOutcome i] }).1.offset = i + 1 ∧
      (getUpdate (fuel + 1) { st with outcomes := [okUpdOutcome i] }).1.requests =
        st.requests ++ [("getUpdates", [("offset", toString st.offset), ("limit", "1"),
                                        ("timeout", toString st.TIMEOUT)])]) ∧
    ((pollSeq (mkSt 0 "" "TS" 0 []) [5]).offset = 6 ∧
     (pollSeq (mkSt 0 "" "TS" 0 []) [5, 7]).offset = 8 ∧
     (pollSeq (mkSt 0 "" "TS" 0 []) [5, 7, 9]).offset = 10 ∧
     (pollSeq (mkSt 0 "" "TS" 0 []) [5, 7, 9]).requests =
       [("getUpdates", [("offset", "0"), ("limit", "1"), ("timeout", "3600")]),
        ("getUpdates", [("offset", "6"), ("limit", "1"), ("timeout", "3600")]),
        ("getUpdates", [("offset", "8"), ("limit", "1"), ("timeout", "3600")])]) :=
  ⟨fun _ _ _ => ⟨rfl, rfl⟩, rfl, rfl, rfl, rfl⟩

/-- C3 counterexample: the claim says no exception escapes `sendRequest` for
any response body, but a successful HTTP round trip whose body is the valid
JSON object `\x7b\x7d` makes line 38's `response["ok"]` raise `KeyError`
inside the `else:` clause, where no handler exists, and the exception
escapes to the `sendMsg` caller. -/
theorem C3_keyError_escapes :
    (sendMsg 3 (mkSt 0 "" "TS" 0 [RawOutcome.parsed (Json.obj [])]) 5 "hi").2 =
      Except.error (PyExc.keyError "ok") := rfl

/-- C3 (amended): no exception escapes `sendMsg`, `sendKeyboard`,
`deletMessage` or `getUpdate` provided the call stays within the recursion
limit (fuel exceeds the pending-outcome count) and every scripted response
is benign: transport exceptions are always benign, and a parsed body must be
an object carrying `ok`, carrying `result` when `ok` is truthy, and not an
`ok`-falsy envelope while a log file is configured (line 42 would pass the
response dict to `writeLog`, raising `TypeError`); for `getUpdate` the first
response's truthy result must additionally be a well-formed update list
(else line 52's indexing raises). -/
theorem C3_amended_no_exception_escapes (fuel : Nat) (st : St) (chatID : Int)
    (text keyboard : String) (message_id : Int)
    (hlen : st.outcomes.length < fuel)
    (hben : st.outcomes.all (benignB (st.LOGFILEPATH != "")) = true)
    (hupd : goodUpdatesHead st.outcomes = true) :
    exceptOk (sendMsg fuel st chatID text).2 = true ∧
    exceptOk (sendKeyboard fuel st chatID text keyboard).2 = true ∧
    exceptOk (deletMessage fuel st chatID message_id).2 = true ∧
    exceptOk (getUpdate fuel st).2 = true :=
  ⟨sendRequest_noExc fuel st _ _ hlen hben,
   sendRequest_noExc fuel st _ _ hlen hben,
   sendRequest_noExc fuel st _ _ hlen hben,
   getUpdate_noExc fuel st hlen hben hupd⟩

/-- Witness for the amended C3 at a concrete state: one caught network
failure (admin notification served benignly) followed by clean calls. -/
theorem C3_amended_witness :
    (mkSt 5 "" "TS" 0 [RawOutcome.netExc "boom", okNullOutcome]).outcomes.length < 4 ∧
    (mkSt 5 "" "TS" 0 [RawOutcome.netExc "boom", okNullOutcome]).outcomes.all
      (benignB ((mkSt 5 "" "TS" 0 [RawOutcome.netExc "boom", okNullOutcome]).LOGFILEPATH != "")) = true ∧
    goodUpdatesHead (mkSt 5 "" "TS" 0 [RawOutcome.netExc "boom", okNullOutcome]).outcomes = true ∧
    exceptOk (sendMsg 4 (mkSt 5 "" "TS" 0 [RawOutcome.netExc "boom", okNullOutcome]) 1 "x").2 = true :=
  ⟨by decide, by decide, by decide,
   (C3_amended_no_exception_escapes 4 (mkSt 5 "" "TS" 0 [RawOutcome.netExc "boom", okNullOutcome])
      1 "x" "" 0 (by decide) (by decide) (by decide)).1⟩

/-- C10: the send and delete operations never change the cursor or any
constructor-set attribute, whatever the transport does (`framePres` also
records that they only consume scripted outcomes); `getUpdate`, the only
cursor writer, still preserves every configuration attribute. -/
theorem C10_frame (fuel : Nat) (st : St) (chatID : Int) (text keyboard msg : String)
    (message_id : Int) :
    framePres (sendMsg fuel st chatID text).1 st ∧
    framePres (sendKeyboard fuel st chatID text keyboard).1 st ∧
    framePres (sendMsgToAdmin fuel st msg).1 st ∧
    framePres (deletMessage fuel st chatID message_id).1 st ∧
    ((getUpdate fuel st).1.URL = st.URL ∧ (getUpdate fuel st).1.TIMEOUT = st.TIMEOUT ∧
     (getUpdate fuel st).1.ADMINCHATID = st.ADMINCHATID ∧
     (getUpdate fuel st).1.LOGFILEPATH = st.LOGFILEPATH ∧
     (getUpdate fuel st).1.now = st.now) := by
  refine ⟨sendRequest_framePres fuel st _ _, sendRequest_framePres fuel st _ _,
          sendRequest_framePres fuel st _ _, sendRequest_framePres fuel st _ _, ?_⟩
  rw [getUpdate]
  rcases hsr : sendRequest fuel st "getUpdates"
      [("offset", toString st.offset), ("limit", "1"), ("timeout", toString st.TIMEOUT)]
    with ⟨st1, r⟩
  have hf := sendRequest_framePres fuel st "getUpdates"
    [("offset", toString st.offset), ("limit", "1"), ("timeout", toString st.TIMEOUT)]
  rw [hsr] at hf
  obtain ⟨hu, ht, ha, hl, ho, hn, hs⟩ := hf
  cases r with
  | error e => exact ⟨hu, ht, ha, hl, hn⟩
  | ok v =>
    cases v with
    | none => exact ⟨hu, ht, ha, hl, hn⟩
    | some j =>
      dsimp only
      cases htrj : pyTruthy j with
      | false =>
        rw [if_neg Bool.false_ne_true]
        exact ⟨hu, ht, ha, hl, hn⟩
      | true =>
        rw [if_pos rfl]
        split
        · split
          · exact ⟨hu, ht, ha, hl, hn⟩
          · exact ⟨hu, ht, ha, hl, hn⟩
          · exact ⟨hu, ht, ha, hl, hn⟩
        · exact ⟨hu, ht, ha, hl, hn⟩
        · exact ⟨hu, ht, ha, hl, hn⟩

theorem escChars_plain : ∀ (cs : List Char), cs.all plainChar = true → escChars cs = cs := by
  intro cs h
  induction cs with
  | nil => rfl
  | cons c rest ih =>
    simp only [List.all_cons, Bool.and_eq_true] at h
    obtain ⟨hc, hr⟩ := h
    simp only [plainChar, Bool.not_eq_true', Bool.or_eq_false_iff,
      decide_eq_false_iff_not] at hc
    obtain ⟨⟨⟨⟨h1, h2⟩, h3⟩, h4⟩, h5⟩ := hc
    rw [escChars, if_neg h1, if_neg h2, if_neg h3, if_neg h4, if_neg h5]
    simp [ih hr]

theorem pyEsc_plain (s : String) (h : s.data.all plainChar = true) : pyEsc s = s := by
  unfold pyEsc
  rw [escChars_plain s.data h]

/-- C5: an `ok:false` envelope with a configured admin id triggers exactly
one admin notification for that failure — one additional `sendMessage`
request targeting `ADMINCHATID` whose `text` is `str(response)`, which
contains the envelope's `description` verbatim (for descriptions without
`repr`-escaped characters). -/
theorem C5_admin_notified_on_ok_false (fuel : Nat) (st : St) (method : String)
    (data : List (String × String)) (d : String)
    (hadmin : (st.ADMINCHATID == 0) = false)
    (houtc : st.outcomes = [RawOutcome.parsed (envFalse d), okNullOutcome])
    (hplain : d.data.all plainChar = true) :
    (sendRequest (fuel + 2) st method data).1.adminSends = st.adminSends + 1 ∧
    (sendRequest (fuel + 2) st method data).1.requests =
      st.requests ++ [(method, data),
        ("sendMessage", [("chat_id", toString st.ADMINCHATID), ("text", pyStr (envFalse d))])] ∧
    Appears d (pyStr (envFalse d)) := by
  have happ : Appears d (pyStr (envFalse d)) := by
    refine ⟨"\x7b" ++ pyStrLit "ok" ++ ": " ++ "False" ++ ", " ++ pyStrLit "description" ++ ": " ++ sglq,
            sglq ++ "\x7d", ?_⟩
    show pyStr (Json.obj [("ok", Json.bool false), ("description", Json.str d)]) = _
    simp only [pyStr, pyStrFields, pyStrLit, pyEsc_plain d hplain]
    simp [String.append_assoc]
  refine ⟨?_, ?_, happ⟩ <;>
  · cases hlogb : st.LOGFILEPATH == "" <;>
      simp [sendRequest, popOutcome, recordReq, outcomeClass, envFalse, okNullOutcome,
            lookupField, pyTruthy, houtc, hadmin, hlogb, writeLog, writeLogOnJson,
            List.append_assoc]

/-- Witness for C5 at a concrete bot (admin chat 42) and envelope
description "bad request". -/
theorem C5_witness :
    ((mkSt 42 "" "TS" 0 [RawOutcome.parsed (envFalse "bad request"), okNullOutcome]).ADMINCHATID
        == 0) = false ∧
    "bad request".data.all plainChar = true ∧
    ((sendRequest (0 + 2)
        (mkSt 42 "" "TS" 0 [RawOutcome.parsed (envFalse "bad request"), okNullOutcome])
        "sendMessage" [("chat_id", "1"), ("text", "hello")]).1.adminSends =
      (mkSt 42 "" "TS" 0 [RawOutcome.parsed (envFalse "bad request"), okNullOutcome]).adminSends
        + 1 ∧
     (sendRequest (0 + 2)
        (mkSt 42 "" "TS" 0 [RawOutcome.parsed (envFalse "bad request"), okNullOutcome])
        "sendMessage" [("chat_id", "1"), ("text", "hello")]).1.requests =
       (mkSt 42 "" "TS" 0 [RawOutcome.parsed (envFalse "bad request"), okNullOutcome]).requests ++
         [("sendMessage", [("chat_id", "1"), ("text", "hello")]),
          ("sendMessage",
           [("chat_id", toString
               (mkSt 42 "" "TS" 0
                 [RawOutcome.parsed (envFalse "bad request"), okNullOutcome]).ADMINCHATID),
            ("text", pyStr (envFalse "bad request"))])] ∧
     Appears "bad request" (pyStr (envFalse "bad request"))) :=
  ⟨by decide, by decide,
   C5_admin_notified_on_ok_false 0
     (mkSt 42 "" "TS" 0 [RawOutcome.parsed (envFalse "bad request"), okNullOutcome])
     "sendMessage" [("chat_id", "1"), ("text", "hello")] "bad request"
     (by decide) rfl (by decide)⟩

/-- C6 counterexample: the claim says a failure of the admin notification
sent during error handling is silently dropped and error handling never
recurses.  With an admin configured and two consecutive network failures,
one facade call yields two `errorHandler` invocations and two admin-send
attempts: the inner failure re-entered error handling. -/
theorem C6_error_handling_recurses :
    (sendRequest 5 (mkSt 7 "" "TS" 0 [RawOutcome.netExc "errA", RawOutcome.netExc "errB"])
        "sendMessage" [("chat_id", "1"), ("text", "hi")]).1.ehCalls = 2 ∧
    (sendRequest 5 (mkSt 7 "" "TS" 0 [RawOutcome.netExc "errA", RawOutcome.netExc "errB"])
        "sendMessage" [("chat_id", "1"), ("text", "hi")]).1.adminSends = 2 :=
  ⟨rfl, rfl⟩

/-- C6 (amended): when the admin notification issued while handling an error
itself fails, that inner failure is not dropped — it re-enters
`errorHandler` through the inner `sendRequest`'s own `except` clause, giving
two handler invocations and two admin-send attempts for one facade call
(recursion bounded only by the chain of failures and the recursion limit). -/
theorem C6_amended_inner_failure_reenters (fuel : Nat) (a : Int) (now d1 d2 : String)
    (method : String) (data : List (String × String)) (ha : (a == 0) = false) :
    (sendRequest (fuel + 3) (mkSt a "" now 0 [RawOutcome.netExc d1, RawOutcome.netExc d2])
        method data).1.ehCalls = 2 ∧
    (sendRequest (fuel + 3) (mkSt a "" now 0 [RawOutcome.netExc d1, RawOutcome.netExc d2])
        method data).1.adminSends = 2 ∧
    exceptOk (sendRequest (fuel + 3)
        (mkSt a "" now 0 [RawOutcome.netExc d1, RawOutcome.netExc d2]) method data).2 = true := by
  refine ⟨?_, ?_, ?_⟩ <;>
    simp [sendRequest, popOutcome, recordReq, outcomeClass, mkSt, ha, writeLog,
          lookupField, pyTruthy, exceptOk]

/-- Witness for the amended C6 at admin chat 7. -/
theorem C6_amended_witness :
    ((7 : Int) == 0) = false ∧
    ((sendRequest (2 + 3) (mkSt 7 "" "TS" 0 [RawOutcome.netExc "errA", RawOutcome.netExc "errB"])
        "sendMessage" [("chat_id", "1"), ("text", "hi")]).1.ehCalls = 2 ∧
     (sendRequest (2 + 3) (mkSt 7 "" "TS" 0 [RawOutcome.netExc "errA", RawOutcome.netExc "errB"])
        "sendMessage" [("chat_id", "1"), ("text", "hi")]).1.adminSends = 2 ∧
     exceptOk (sendRequest (2 + 3)
        (mkSt 7 "" "TS" 0 [RawOutcome.netExc "errA", RawOutcome.netExc "errB"])
        "sendMessage" [("chat_id", "1"), ("text", "hi")]).2 = true) :=
  ⟨by decide,
   C6_amended_inner_failure_reenters 2 7 "TS" "errA" "errB"
     "sendMessage" [("chat_id", "1"), ("text", "hi")] (by decide)⟩

/-- C7: the claim says every failure with a log path configured appends
exactly one block.  For an `ok:false` envelope failure, line 42 passes the
response dict itself to `writeLog`, whose string concatenation at line 82
raises `TypeError`: nothing is appended and the exception escapes — the call
contradicts `writeLog`'s own `msg: str` annotation. -/
theorem C7_ok_false_log_raises_typeError :
    (sendMsg 3 (mkSt 0 "log.txt" "TS" 0 [RawOutcome.parsed (envFalse "oops")]) 1 "x").2 =
      Except.error (PyExc.typeError "can only concatenate str") ∧
    (sendMsg 3 (mkSt 0 "log.txt" "TS" 0 [RawOutcome.parsed (envFalse "oops")]) 1 "x").1.logWrites
      = 0 ∧
    (sendMsg 3 (mkSt 0 "log.txt" "TS" 0 [RawOutcome.parsed (envFalse "oops")]) 1 "x").1.logText
      = "" :=
  ⟨rfl, rfl, rfl⟩

/-- For string-message failures (the `errorHandler` paths) the log block IS
appended exactly once in the claimed shape: separator, timestamp, diagnostic,
each newline-terminated, appended after the prior content. -/
theorem errorHandler_log_one_block (fuel : Nat) (st : St) (method : String)
    (data : List (String × String)) (f b : String)
    (hadm : (st.ADMINCHATID == 0) = true)
    (hlog : (st.LOGFILEPATH == "") = false)
    (houtc : st.outcomes = [RawOutcome.httpErr f b]) :
    (sendRequest (fuel + 1) st method data).1.logWrites = st.logWrites + 1 ∧
    (sendRequest (fuel + 1) st method data).1.logText =
      st.logText ++ "----------" ++ "\n" ++ st.now ++ "\n" ++ (f ++ "\n" ++ b) ++ "\n" ∧
    exceptOk (sendRequest (fuel + 1) st method data).2 = true := by
  refine ⟨?_, ?_, ?_⟩ <;>
    simp [sendRequest, popOutcome, recordReq, outcomeClass, errMsg, writeLog,
          houtc, hadm, hlog, exceptOk]

/-- C9: the claim says chat id, message text, keyboard payload and target URL
never appear in the diagnostic built for a non-HTTP exception.  The code pops
`chatID`/`text`/`keyboard`/`url` from `sendRequest`'s own frame — where those
names do not exist — while that frame's `data` local still carries the
urlencoded form body, so the logged diagnostic for `sendMsg(99, "topsecret")`
contains both the chat id and the message text. -/
theorem C9_diagnostic_leaks_user_data :
    strContains "text=topsecret"
      (sendMsg 3 (mkSt 0 "log.txt" "TS" 0 [RawOutcome.netExc "Connection refused"])
        99 "topsecret").1.logText = true ∧
    strContains "chat_id=99"
      (sendMsg 3 (mkSt 0 "log.txt" "TS" 0 [RawOutcome.netExc "Connection refused"])
        99 "topsecret").1.logText = true :=
  ⟨by decide, by decide⟩

theorem pollSeq_cons (st : St) (i : Int) (rest : List Int) :
    pollSeq st (i :: rest) =
      pollSeq { st with offset := i + 1,
                        outcomes := [],
                        requests := st.requests ++ [("getUpdates",
                          [("offset", toString st.offset), ("limit", "1"),
                           ("timeout", toString st.TIMEOUT)])] } rest := rfl

theorem ascendingB_le_maxOf (c : Int) (ids : List Int) (h : ascendingB c ids = true)
    (hne : ids ≠ []) : c ≤ maxOf ids := by
  cases ids with
  | nil => exact absurd rfl hne
  | cons i rest =>
    rw [ascendingB] at h
    by_cases hle : c ≤ i
    · cases rest with
      | nil => simpa [maxOf] using hle
      | cons j t =>
        calc c ≤ i := hle
          _ ≤ max i (maxOf (j :: t)) := le_max_left _ _
    · rw [if_neg hle] at h
      exact absurd h (by simp)

theorem pollSeq_ascending (ids : List Int) : ∀ (st : St),
    ascendingB st.offset ids = true →
    st.offset ≤ (pollSeq st ids).offset ∧
    (ids ≠ [] → (pollSeq st ids).offset = 1 + maxOf ids) := by
  induction ids with
  | nil => intro st _; exact ⟨le_refl _, fun hne => absurd rfl hne⟩
  | cons i rest ih =>
    intro st h
    rw [ascendingB] at h
    by_cases hle : st.offset ≤ i
    · rw [if_pos hle] at h
      rw [pollSeq_cons]
      obtain ⟨hmono, hmax⟩ := ih
        ({ st with offset := i + 1, outcomes := [],
                   requests := st.requests ++ [("getUpdates",
                     [("offset", toString st.offset), ("limit", "1"),
                      ("timeout", toString st.TIMEOUT)])] } : St) h
      constructor
      · calc st.offset ≤ i + 1 := by omega
          _ ≤ _ := hmono
      · intro _
        cases rest with
        | nil =>
          show (i + 1 : Int) = 1 + maxOf [i]
          simp [maxOf]
          omega
        | cons j t =>
          have hfin := hmax (by simp)
          rw [hfin]
          have hle2 : i + 1 ≤ maxOf (j :: t) :=
            ascendingB_le_maxOf (i + 1) (j :: t) h (by simp)
          rw [show maxOf (i :: j :: t) = max i (maxOf (j :: t)) from rfl,
              max_eq_right (by omega)]
    · rw [if_neg hle] at h
      exact absurd h (by simp)

theorem pollSeq_append (st : St) (pre suf : List Int) :
    pollSeq st (pre ++ suf) = pollSeq (pollSeq st pre) suf := by
  induction pre generalizing st with
  | nil => rfl
  | cons i rest ih =>
    rw [List.cons_append, pollSeq_cons, pollSeq_cons]
    exact ih _

theorem ascendingB_after (pre : List Int) : ∀ (suf : List Int) (st : St),
    ascendingB st.offset (pre ++ suf) = true →
    ascendingB (pollSeq st pre).offset suf = true := by
  induction pre with
  | nil => intro suf st h; exact h
  | cons i rest ih =>
    intro suf st h
    rw [List.cons_append, ascendingB] at h
    by_cases hle : st.offset ≤ i
    · rw [if_pos hle] at h
      rw [pollSeq_cons]
      exact ih suf
        ({ st with offset := i + 1, outcomes := [],
                   requests := st.requests ++ [("getUpdates",
                     [("offset", toString st.offset), ("limit", "1"),
                      ("timeout", toString st.TIMEOUT)])] } : St) h
    · rw [if_neg hle] at h
      exact absurd h (by simp)

/-- C8 counterexample: the claim says the cursor never decreases and always
equals `1 + max(update ids so far)`.  Line 52 sets it from the latest
response unconditionally, so polls returning ids `9` then `5` move the
cursor from `10` down to `6` (and `6 ≠ 1 + max {9, 5} = 10`). -/
theorem C8_cursor_can_decrease :
    (pollSeq (mkSt 0 "" "TS" 0 []) [9]).offset = 10 ∧
    (pollSeq (mkSt 0 "" "TS" 0 []) [9, 5]).offset = 6 ∧
    (6 : Int) < 10 :=
  ⟨rfl, rfl, by decide⟩

/-- C8 (amended): provided every non-empty poll returns an update id at
least the cursor in force when it was requested (the offset-based
protocol's normal-operation guarantee), the cursor never decreases across
the run — after any prefix of the polls it is at most the final cursor —
and after each successful non-empty poll sequence it equals
`1 + max(update ids so far)`. -/
theorem C8_amended_cursor_monotone (st : St) (ids : List Int)
    (h : ascendingB st.offset ids = true) :
    (∀ pre suf, ids = pre ++ suf → (pollSeq st pre).offset ≤ (pollSeq st ids).offset) ∧
    (ids ≠ [] → (pollSeq st ids).offset = 1 + maxOf ids) := by
  constructor
  · intro pre suf hsplit
    subst hsplit
    rw [pollSeq_append]
    exact (pollSeq_ascending suf (pollSeq st pre) (ascendingB_after pre suf st h)).1
  · exact (pollSeq_ascending ids st h).2

/-- Witness for the amended C8 on the polls `5, 7, 9` from a fresh bot. -/
theorem C8_amended_witness :
    ascendingB (mkSt 0 "" "TS" 0 []).offset [5, 7, 9] = true ∧
    ([5, 7, 9] : List Int) ≠ [] ∧
    (pollSeq (mkSt 0 "" "TS" 0 []) [5, 7, 9]).offset = 1 + maxOf [5, 7, 9] :=
  ⟨by decide, by decide,
   (C8_amended_cursor_monotone (mkSt 0 "" "TS" 0 []) [5, 7, 9] (by decide)).2 (by decide)⟩
